import Mathlib

/-!
Shallow embedding of the CRT overlay web component's configuration core
(`CRTOverlay` in the repository's component source): the configuration
object built in the constructor, the attribute-change handler
(`attributeChangedCallback` together with `observedAttributes`, which gates
which attribute mutations ever reach the handler), the preset table and
`applyPreset`, the bulk `updateConfig` entry point, and the style-projection
functions `updateModeZIndex`, `applyGlobalFilters` and
`updateExternalBloomLayer`.

JavaScript numbers are modelled as rationals (`ℚ`); the numeric literals in
the source are exact decimals, so every value appearing here is represented
exactly.  `parseFloat` / `parseInt` are modelled on decimal numerals the way
JavaScript treats them (optional sign, digits, optional fraction, trailing
junk ignored, failure = NaN modelled as `none`).
-/

namespace CrtOverlay

/-- Digits of a string prefix: numeric value of a list of decimal digit
characters, most significant first. -/
def digitsToNat (ds : List Char) : Nat :=
  ds.foldl (fun a c => 10 * a + (c.toNat - '0'.toNat)) 0

/-- Model of JavaScript `parseFloat` restricted to the decimal numerals this
component receives: optional leading spaces, optional sign, an integer part
and an optional fractional part, any trailing junk ignored.  `none` models
the `NaN` result. -/
def jsParseFloat (s : String) : Option ℚ :=
  let cs := s.data.dropWhile (fun c => c == ' ')
  let sgn : ℚ × List Char :=
    match cs with
    | '-' :: t => (-1, t)
    | '+' :: t => (1, t)
    | _ => (1, cs)
  let ip := (sgn.2.takeWhile Char.isDigit)
  let rest := (sgn.2.dropWhile Char.isDigit)
  match rest with
  | '.' :: rest2 =>
    let fp := rest2.takeWhile Char.isDigit
    if ip.isEmpty && fp.isEmpty then none
    else some (sgn.1 * ((digitsToNat ip : ℚ) + (digitsToNat fp : ℚ) / (10 : ℚ) ^ fp.length))
  | _ => if ip.isEmpty then none else some (sgn.1 * (digitsToNat ip : ℚ))

/-- Model of JavaScript `parseInt(s, 10)`: optional leading spaces, optional
sign, then the maximal run of decimal digits; anything else (including the
empty run) is `NaN`, modelled as `none`. -/
def jsParseInt (s : String) : Option Int :=
  let cs := s.data.dropWhile (fun c => c == ' ')
  let sgn : Int × List Char :=
    match cs with
    | '-' :: t => (-1, t)
    | '+' :: t => (1, t)
    | _ => (1, cs)
  let ip := sgn.2.takeWhile Char.isDigit
  if ip.isEmpty then none else some (sgn.1 * (digitsToNat ip : Int))

/-- Decimal digits of the proper fraction `num / den` (with `num < den`),
produced by long division; `fuel` bounds the recursion.  Every numeric value
in the source is a finite decimal, so the division terminates exactly. -/
def fracDigits : Nat → Nat → Nat → String
  | 0, _, _ => ""
  | _, 0, _ => ""
  | fuel + 1, num, den =>
    let num10 := num * 10
    toString (num10 / den) ++ fracDigits fuel (num10 % den) den

/-- Model of JavaScript `String(x)` for the numbers this component handles
(finite decimals): integer part, and a fractional part only when nonzero. -/
def ratToJsString (q : ℚ) : String :=
  let sgn := if q < 0 then "-" else ""
  let n := q.num.natAbs
  let d := q.den
  if n % d = 0 then sgn ++ toString (n / d)
  else sgn ++ toString (n / d) ++ "." ++ fracDigits 30 (n % d) d

/-- Dynamically typed JavaScript value as stored in the configuration object
and in presets. -/
inductive JsVal where
  | num (q : ℚ)
  | str (s : String)
  | bool (b : Bool)
deriving DecidableEq, Repr

/-- JavaScript `String(v)` on a stored value (used by `applyPreset` when it
echoes preset values back through `setAttribute`). -/
def JsVal.toJsString : JsVal → String
  | .num q => ratToJsString q
  | .str s => s
  | .bool b => if b then "true" else "false"

/-- Configuration object `this.config` built in the `CRTOverlay`
constructor: one field per property, in source order.  `scanlineMask` is
kept dynamically typed (`JsVal`) because the generic numeric assignment in
`attributeChangedCallback` would, in JavaScript, store a number there (that
branch is unreachable through the DOM because the attribute is not
observed, but the field type records the possibility faithfully). -/
structure Config where
  scanOpacity : ℚ
  scanlineColor : ℚ
  hairlineOpacity : ℚ
  fringeOpacity : ℚ
  fringeDominant : ℚ
  fringeJitterSpeed : ℚ
  fringeJitterAmount : ℚ
  noiseOpacity : ℚ
  barrel : ℚ
  scanSize : ℚ
  scanDensity : ℚ
  phosphorSize : ℚ
  phosphorOpacityRed : ℚ
  phosphorOpacityGreen : ℚ
  phosphorOpacityBlue : ℚ
  scanlineMask : JsVal
  bloom : ℚ
  bloomColor : String
  bloomRadius : ℚ
  bloomDecay : ℚ
  bloomBlur : ℚ
  bloomBrightness : ℚ
  colorPaletteShift : ℚ
  vignetteOpacity : ℚ
  vignetteRadius : ℚ
  vignetteFeather : ℚ
  vignetteColorLight : ℚ
  vignetteColorDark : ℚ
  reflectionOpacity : ℚ
  reflectionSize : ℚ
  reflectionPositionX : ℚ
  reflectionPositionY : ℚ
  reflection : Bool
  flickerOpacity : ℚ
  interlaceSpeed : ℚ
  flicker : Bool
  controls : Bool
  mode : Int
  applyBarrelTo : Option String
  legacyInterlace : Bool
  legacyBloom : Bool
deriving DecidableEq

/-- Initial configuration: the literal object assigned to `this.config` in
the `CRTOverlay` constructor. -/
def initialConfig : Config where
  scanOpacity := 0.85
  scanlineColor := 0
  hairlineOpacity := 0.18
  fringeOpacity := 0.25
  fringeDominant := 0.5
  fringeJitterSpeed := 3.2
  fringeJitterAmount := 2
  noiseOpacity := 0.22
  barrel := 2
  scanSize := 4
  scanDensity := 2
  phosphorSize := 1
  phosphorOpacityRed := 0.15
  phosphorOpacityGreen := 0.15
  phosphorOpacityBlue := 0.15
  scanlineMask := .str "shadow-mask"
  bloom := 0.15
  bloomColor := "white"
  bloomRadius := 1400
  bloomDecay := 55
  bloomBlur := 10
  bloomBrightness := 1.2
  colorPaletteShift := 0
  vignetteOpacity := 0.5
  vignetteRadius := 85
  vignetteFeather := 40
  vignetteColorLight := 0.35
  vignetteColorDark := 0.7
  reflectionOpacity := 0.03
  reflectionSize := 1400
  reflectionPositionX := 50
  reflectionPositionY := 10
  reflection := false
  flickerOpacity := 0.08
  interlaceSpeed := 0.08
  flicker := true
  controls := false
  mode := 1
  applyBarrelTo := none
  legacyInterlace := true
  legacyBloom := true

/-- Static `observedAttributes` list of `CRTOverlay`.  The DOM invokes
`attributeChangedCallback` only for attribute names in this list. -/
def observedAttributes : List String :=
  ["scan-opacity", "hairline-opacity", "fringe-opacity", "fringe-dominant", "noise-opacity",
   "barrel", "scan-size", "scan-density", "phosphor-size", "bloom", "bloom-color",
   "bloom-radius", "bloom-decay", "bloom-blur",
   "scanline-color", "vignette-opacity", "vignette-radius", "vignette-feather",
   "flicker-opacity", "color-palette-shift", "interlace-speed",
   "reflection-opacity", "reflection-size", "reflection-position-x", "reflection-position-y",
   "flicker", "reflection", "controls", "mode", "apply-barrel-to"]

/-- Attribute-name to configuration-key lookup table (`map`) declared inside
`attributeChangedCallback`, in source order. -/
def attrConfigMap : List (String × String) :=
  [("scan-opacity", "scanOpacity"), ("scanline-color", "scanlineColor"),
   ("hairline-opacity", "hairlineOpacity"), ("fringe-opacity", "fringeOpacity"),
   ("fringe-dominant", "fringeDominant"), ("fringe-jitter-speed", "fringeJitterSpeed"),
   ("fringe-jitter-amount", "fringeJitterAmount"), ("noise-opacity", "noiseOpacity"),
   ("barrel", "barrel"), ("scan-size", "scanSize"), ("scan-density", "scanDensity"),
   ("phosphor-size", "phosphorSize"), ("phosphor-opacity-red", "phosphorOpacityRed"),
   ("phosphor-opacity-green", "phosphorOpacityGreen"), ("phosphor-opacity-blue", "phosphorOpacityBlue"),
   ("bloom", "bloom"), ("bloom-color", "bloomColor"), ("bloom-radius", "bloomRadius"),
   ("bloom-decay", "bloomDecay"), ("bloom-blur", "bloomBlur"), ("bloom-brightness", "bloomBrightness"),
   ("vignette-opacity", "vignetteOpacity"), ("vignette-radius", "vignetteRadius"),
   ("vignette-feather", "vignetteFeather"), ("vignette-color-light", "vignetteColorLight"),
   ("vignette-color-dark", "vignetteColorDark"), ("reflection-opacity", "reflectionOpacity"),
   ("reflection-size", "reflectionSize"), ("reflection-position-x", "reflectionPositionX"),
   ("reflection-position-y", "reflectionPositionY"), ("scanline-mask", "scanlineMask"),
   ("flicker-opacity", "flickerOpacity"), ("color-palette-shift", "colorPaletteShift"),
   ("interlace-speed", "interlaceSpeed"),
   ("flicker", "flicker"), ("reflection", "reflection"), ("controls", "controls"),
   ("mode", "mode"), ("apply-barrel-to", "applyBarrelTo")]

/-- Dynamic property assignment `this.config[key] = v` for the configuration
keys that are written generically (the numeric `else` branch of
`attributeChangedCallback`, and the per-key copy done by `Object.assign`
during `applyPreset`).  Keys handled only by dedicated branches in the
source (`mode`, `applyBarrelTo`) never reach this function; an unknown key
leaves the object unchanged. -/
def assignByKey (cfg : Config) (key : String) (v : JsVal) : Config :=
  match key, v with
  | "scanOpacity", .num q => { cfg with scanOpacity := q }
  | "scanlineColor", .num q => { cfg with scanlineColor := q }
  | "hairlineOpacity", .num q => { cfg with hairlineOpacity := q }
  | "fringeOpacity", .num q => { cfg with fringeOpacity := q }
  | "fringeDominant", .num q => { cfg with fringeDominant := q }
  | "fringeJitterSpeed", .num q => { cfg with fringeJitterSpeed := q }
  | "fringeJitterAmount", .num q => { cfg with fringeJitterAmount := q }
  | "noiseOpacity", .num q => { cfg with noiseOpacity := q }
  | "barrel", .num q => { cfg with barrel := q }
  | "scanSize", .num q => { cfg with scanSize := q }
  | "scanDensity", .num q => { cfg with scanDensity := q }
  | "phosphorSize", .num q => { cfg with phosphorSize := q }
  | "phosphorOpacityRed", .num q => { cfg with phosphorOpacityRed := q }
  | "phosphorOpacityGreen", .num q => { cfg with phosphorOpacityGreen := q }
  | "phosphorOpacityBlue", .num q => { cfg with phosphorOpacityBlue := q }
  | "scanlineMask", w => { cfg with scanlineMask := w }
  | "bloom", .num q => { cfg with bloom := q }
  | "bloomColor", .str s => { cfg with bloomColor := s }
  | "bloomRadius", .num q => { cfg with bloomRadius := q }
  | "bloomDecay", .num q => { cfg with bloomDecay := q }
  | "bloomBlur", .num q => { cfg with bloomBlur := q }
  | "bloomBrightness", .num q => { cfg with bloomBrightness := q }
  | "colorPaletteShift", .num q => { cfg with colorPaletteShift := q }
  | "vignetteOpacity", .num q => { cfg with vignetteOpacity := q }
  | "vignetteRadius", .num q => { cfg with vignetteRadius := q }
  | "vignetteFeather", .num q => { cfg with vignetteFeather := q }
  | "vignetteColorLight", .num q => { cfg with vignetteColorLight := q }
  | "vignetteColorDark", .num q => { cfg with vignetteColorDark := q }
  | "reflectionOpacity", .num q => { cfg with reflectionOpacity := q }
  | "reflectionSize", .num q => { cfg with reflectionSize := q }
  | "reflectionPositionX", .num q => { cfg with reflectionPositionX := q }
  | "reflectionPositionY", .num q => { cfg with reflectionPositionY := q }
  | "reflection", .bool b => { cfg with reflection := b }
  | "flickerOpacity", .num q => { cfg with flickerOpacity := q }
  | "interlaceSpeed", .num q => { cfg with interlaceSpeed := q }
  | "flicker", .bool b => { cfg with flicker := b }
  | "controls", .bool b => { cfg with controls := b }
  | _, _ => cfg

/-- Configuration mutation performed by `CRTOverlay.attributeChangedCallback`
(the style-refresh calls it then makes are view-layer and not modelled).
`oldV`/`newV` are the DOM's old and new attribute values (`none` = absent);
the handler returns unchanged when they coincide, drops unmapped names, and
otherwise dispatches on the attribute shape exactly as the source does. -/
def attributeChangedCallback (cfg : Config) (name : String) (oldV newV : Option String) : Config :=
  if oldV == newV then cfg
  else
    match attrConfigMap.lookup name with
    | none => cfg
    | some key =>
      if name == "flicker" || name == "controls" || name == "reflection" then
        assignByKey cfg key (.bool newV.isSome)
      else if name == "apply-barrel-to" then
        { cfg with applyBarrelTo :=
            match newV with
            | some v => if v == "" then none else some v
            | none => none }
      else if name == "mode" then
        { cfg with mode :=
            match newV.bind jsParseInt with
            | none => 1
            | some n => if n = 0 then 1 else n }
      else if name == "bloom-color" then
        { cfg with bloomColor :=
            match newV with
            | some v => if v == "" then "white" else v
            | none => "white" }
      else
        match newV.bind jsParseFloat with
        | none => cfg
        | some q => assignByKey cfg key (.num q)

/-- State of one `crt-overlay` element: its DOM attributes and its
configuration object. -/
structure ElementState where
  attrs : List (String × String)
  config : Config
deriving DecidableEq

/-- Freshly constructed element: no attributes, constructor configuration. -/
def initialElement : ElementState :=
  { attrs := [], config := initialConfig }

/-- Attribute-list update used by `setAttribute`: replace the value if the
name is present, otherwise append the pair. -/
def setAttrList : List (String × String) → String → String → List (String × String)
  | [], n, v => [(n, v)]
  | (k, w) :: t, n, v => if k == n then (k, v) :: t else (k, w) :: setAttrList t n v

/-- DOM `setAttribute` plus the custom-element reaction: the attribute value
is stored, and `attributeChangedCallback` runs (with the previous value as
`oldValue`) exactly when the name is listed in `observedAttributes`. -/
def setAttribute (st : ElementState) (n v : String) : ElementState :=
  let old := st.attrs.lookup n
  let attrs2 := setAttrList st.attrs n v
  if observedAttributes.contains n then
    { attrs := attrs2, config := attributeChangedCallback st.config n old (some v) }
  else
    { attrs := attrs2, config := st.config }

/-- Camel-case to attribute-name conversion used by `applyPreset` and
`updateConfig`: every upper-case letter becomes a hyphen followed by its
lower-case form. -/
def kebab (k : String) : String :=
  String.mk (k.data.foldr (fun c acc => if c.isUpper then '-' :: c.toLower :: acc else c :: acc) [])

/-- Configuration/attribute mutation performed by `CRTOverlay.applyPreset`:
`Object.assign(this.config, preset)` followed by `setAttribute` of every
preset entry (in insertion order) with its stringified value.  The controls
synchronisation and style refresh that follow are view-layer and not
modelled.  A preset is its field list in source insertion order. -/
def applyPreset (st : ElementState) (preset : List (String × JsVal)) : ElementState :=
  let cfg1 := preset.foldl (fun c kv => assignByKey c kv.1 kv.2) st.config
  preset.foldl (fun s kv => setAttribute s (kebab kv.1) kv.2.toJsString)
    { st with config := cfg1 }

/-- Bulk entry point `CRTOverlay.updateConfig`: each supplied key is
converted to attribute form and written through `setAttribute` (so it only
reaches the configuration if the resulting name is observed). -/
def updateConfig (st : ElementState) (cfg : List (String × String)) : ElementState :=
  cfg.foldl (fun s kv => setAttribute s (kebab kv.1) kv.2) st

/-- Reference to the per-instance SVG barrel filter:
`url(#crt-barrel-uid)`. -/
def barrelFilterRef (uid : String) : String :=
  "url(#crt-barrel-" ++ uid ++ ")"

/-- Hue-rotation filter string built by `applyGlobalFilters` from the
palette shift. -/
def hueFilterStr (shift : ℚ) : String :=
  "hue-rotate(" ++ ratToJsString shift ++ "deg)"

/-- Observable outcome of `CRTOverlay.applyGlobalFilters`: the filter-chain
string written to the per-instance CSS variable, the CSS target selector
the injected rule applies it to (`none` when the mode branch yields no
target), and whether the per-instance body class ends up present. -/
structure GlobalFilterOutcome where
  filterChain : String
  target : Option String
  bodyClassActive : Bool
deriving DecidableEq

/-- Projection performed by `CRTOverlay.applyGlobalFilters(barrelFilterValue)`.
`barrelFilterValue` is the optional argument (callers pass either nothing or
a nonempty string; a falsy value falls back to the self-computed barrel
reference).  The DOM writes themselves (style property, class list, injected
rule text) are view-layer; their decision values are returned. -/
def applyGlobalFilters (uid : String) (cfg : Config) (barrelFilterValue : Option String) :
    GlobalFilterOutcome :=
  let computed := if cfg.barrel > 0 ∧ cfg.mode > 0 then barrelFilterRef uid else "none"
  let barrel :=
    match barrelFilterValue with
    | some s => if s == "" then computed else s
    | none => computed
  let target : Option String :=
    if cfg.mode = 1 then
      some (cfg.applyBarrelTo.getD ".bg-image")
    else if cfg.mode = 2 then
      some (cfg.applyBarrelTo.getD "> *:not(crt-overlay):not(.crt-controls-portal):not(.crt-external-bloom)")
    else
      none
  let filterChain :=
    if cfg.colorPaletteShift ≠ 0 then
      if barrel = "none" then hueFilterStr cfg.colorPaletteShift
      else barrel ++ " " ++ hueFilterStr cfg.colorPaletteShift
    else barrel
  { filterChain := filterChain
    target := target
    bodyClassActive := decide ((cfg.barrel > 0 ∨ cfg.colorPaletteShift ≠ 0) ∧ cfg.mode > 0) }

/-- Observable outcome of `CRTOverlay.updateModeZIndex`: whether the overlay
(and bloom layer) is hidden, and the z-index assigned when visible (`none`
in the hidden early-return branch, which leaves the z-index untouched). -/
structure ModeZOutcome where
  hidden : Bool
  zIndex : Option Int
deriving DecidableEq

/-- Mode-dependent layering performed by `CRTOverlay.updateModeZIndex`
(`switch` on `this.config.mode`: 0 hides and returns; 1 and the `default`
branch use z-index -1; 2 uses 9999). -/
def updateModeZIndex (cfg : Config) : ModeZOutcome :=
  if cfg.mode = 0 then { hidden := true, zIndex := none }
  else if cfg.mode = 1 then { hidden := false, zIndex := some (-1) }
  else if cfg.mode = 2 then { hidden := false, zIndex := some 9999 }
  else { hidden := false, zIndex := some (-1) }

/-- Bloom approximation of `CRTOverlay.updateExternalBloomLayer`: `none`
models the dead-zone branch that sets the backdrop filter to the literal
`none` (no blur, no brightness); otherwise the emitted pair is the blur in
px (`blur(min(bloomBlur * max(0.15, bloom), 1.5))`) and the brightness
(`1 + bloom * bloomBrightness * 0.4`). -/
def updateExternalBloomLayer (cfg : Config) : Option (ℚ × ℚ) :=
  let b := cfg.bloom
  if b < 0.05 then none
  else
    let blurPx := cfg.bloomBlur * max 0.15 b
    let bright := 1 + b * cfg.bloomBrightness * 0.4
    some (min blurPx 1.5, bright)

/-- Documented numeric attribute ranges, transcribed from the repository
README's Parameters section (attribute, lower bound, upper bound).  The
README states that values are clamped to these ranges. -/
def documentedRanges : List (String × ℚ × ℚ) :=
  [("scan-opacity", 0, 1), ("scanline-color", 0, 1), ("scan-size", 2, 8), ("scan-density", 1, 4),
   ("hairline-opacity", 0, 0.3), ("fringe-opacity", 0, 0.6), ("fringe-dominant", 0, 1),
   ("fringe-jitter-speed", 1, 5), ("fringe-jitter-amount", 0, 5), ("phosphor-size", 0.5, 3),
   ("phosphor-opacity-red", 0, 0.3), ("phosphor-opacity-green", 0, 0.3),
   ("phosphor-opacity-blue", 0, 0.3),
   ("bloom", 0, 0.4), ("bloom-radius", 1200, 1600), ("bloom-decay", 40, 70), ("bloom-blur", 2, 40),
   ("bloom-brightness", 0.5, 2), ("vignette-opacity", 0, 1), ("vignette-radius", 30, 95),
   ("vignette-feather", 10, 80), ("vignette-color-light", 0, 1), ("vignette-color-dark", 0, 1),
   ("reflection-opacity", 0, 0.15), ("reflection-size", 800, 2000),
   ("reflection-position-x", 0, 100), ("reflection-position-y", 0, 100),
   ("color-palette-shift", -180, 180), ("flicker-opacity", 0, 0.2),
   ("interlace-speed", 0.05, 0.2), ("barrel", 0, 6)]

/-- Preset table entry for name "default", fields in source insertion order. -/
def presetDefault : List (String × JsVal) :=
  [("scanOpacity", .num 0.85), ("scanlineColor", .num 0), ("hairlineOpacity", .num 0.18),
   ("fringeOpacity", .num 0.25), ("fringeDominant", .num 0.5), ("fringeJitterSpeed", .num 3.2),
   ("fringeJitterAmount", .num 2), ("noiseOpacity", .num 0.22), ("barrel", .num 2),
   ("scanSize", .num 4), ("scanDensity", .num 2), ("phosphorSize", .num 1),
   ("phosphorOpacityRed", .num 0.15), ("phosphorOpacityGreen", .num 0.15), ("phosphorOpacityBlue", .num 0.15),
   ("bloom", .num 0.15), ("bloomColor", .str "white"), ("bloomRadius", .num 1400),
   ("bloomDecay", .num 55), ("bloomBlur", .num 10), ("bloomBrightness", .num 1.2),
   ("vignetteOpacity", .num 0.5), ("vignetteRadius", .num 85), ("vignetteFeather", .num 40),
   ("vignetteColorLight", .num 0.35), ("vignetteColorDark", .num 0.7), ("reflectionOpacity", .num 0.03),
   ("reflectionSize", .num 1400), ("reflectionPositionX", .num 50), ("reflectionPositionY", .num 10),
   ("reflection", .bool false), ("scanlineMask", .str "shadow-mask"), ("flickerOpacity", .num 0.08),
   ("flicker", .bool true), ("colorPaletteShift", .num 0), ("interlaceSpeed", .num 0.08)]

/-- Preset table entry for name "trinitron-fd", fields in source insertion order. -/
def presetTrinitronFd : List (String × JsVal) :=
  [("scanOpacity", .num 0.72), ("scanlineColor", .num 0.08), ("hairlineOpacity", .num 0.16),
   ("fringeOpacity", .num 0.12), ("fringeDominant", .num 0.4), ("fringeJitterSpeed", .num 2.8),
   ("fringeJitterAmount", .num 1.5), ("noiseOpacity", .num 0.1), ("barrel", .num 1.8),
   ("scanSize", .num 3.5), ("scanDensity", .num 2.2), ("phosphorSize", .num 0.9),
   ("phosphorOpacityRed", .num 0.14), ("phosphorOpacityGreen", .num 0.15), ("phosphorOpacityBlue", .num 0.13),
   ("bloom", .num 0.24), ("bloomColor", .str "white"), ("bloomRadius", .num 1350),
   ("bloomDecay", .num 50), ("bloomBlur", .num 9), ("bloomBrightness", .num 1.3),
   ("vignetteOpacity", .num 0.88), ("vignetteRadius", .num 82), ("vignetteFeather", .num 35),
   ("vignetteColorLight", .num 0.3), ("vignetteColorDark", .num 0.65), ("reflectionOpacity", .num 0.025),
   ("reflectionSize", .num 1350), ("reflectionPositionX", .num 50), ("reflectionPositionY", .num 10),
   ("reflection", .bool false), ("scanlineMask", .str "aperture-grille"), ("flickerOpacity", .num 0.05),
   ("flicker", .bool true), ("colorPaletteShift", .num 0), ("interlaceSpeed", .num 0.08)]

/-- Preset table entry for name "professional-monitor", fields in source insertion order. -/
def presetProfessionalMonitor : List (String × JsVal) :=
  [("scanOpacity", .num 0.92), ("scanlineColor", .num 0.02), ("hairlineOpacity", .num 0.14),
   ("fringeOpacity", .num 0.18), ("fringeDominant", .num 0.6), ("fringeJitterSpeed", .num 3.5),
   ("fringeJitterAmount", .num 2.5), ("noiseOpacity", .num 0.32), ("barrel", .num 2.6),
   ("scanSize", .num 4.5), ("scanDensity", .num 1.8), ("phosphorSize", .num 1.1),
   ("phosphorOpacityRed", .num 0.16), ("phosphorOpacityGreen", .num 0.14), ("phosphorOpacityBlue", .num 0.15),
   ("bloom", .num 0.09), ("bloomColor", .str "white"), ("bloomRadius", .num 1300),
   ("bloomDecay", .num 60), ("bloomBlur", .num 8), ("bloomBrightness", .num 1),
   ("vignetteOpacity", .num 0.94), ("vignetteRadius", .num 88), ("vignetteFeather", .num 38),
   ("vignetteColorLight", .num 0.4), ("vignetteColorDark", .num 0.75), ("reflectionOpacity", .num 0.035),
   ("reflectionSize", .num 1300), ("reflectionPositionX", .num 50), ("reflectionPositionY", .num 10),
   ("reflection", .bool false), ("scanlineMask", .str "shadow-mask"), ("flickerOpacity", .num 0.12),
   ("flicker", .bool true), ("colorPaletteShift", .num 0), ("interlaceSpeed", .num 0.08)]

/-- Preset table entry for name "monitor-1084s", fields in source insertion order. -/
def presetMonitor1084s : List (String × JsVal) :=
  [("scanOpacity", .num 0.88), ("scanlineColor", .num 0.06), ("hairlineOpacity", .num 0.21),
   ("fringeOpacity", .num 0.32), ("fringeDominant", .num 0.65), ("fringeJitterSpeed", .num 3.8),
   ("fringeJitterAmount", .num 3), ("noiseOpacity", .num 0.35), ("barrel", .num 3.4),
   ("scanSize", .num 6), ("scanDensity", .num 1.6), ("phosphorSize", .num 1.4),
   ("phosphorOpacityRed", .num 0.18), ("phosphorOpacityGreen", .num 0.15), ("phosphorOpacityBlue", .num 0.12),
   ("bloom", .num 0.2), ("bloomColor", .str "amber"), ("bloomRadius", .num 1450),
   ("bloomDecay", .num 52), ("bloomBlur", .num 12), ("bloomBrightness", .num 1.4),
   ("vignetteOpacity", .num 0.87), ("vignetteRadius", .num 84), ("vignetteFeather", .num 42),
   ("vignetteColorLight", .num 0.32), ("vignetteColorDark", .num 0.68), ("reflectionOpacity", .num 0.04),
   ("reflectionSize", .num 1450), ("reflectionPositionX", .num 50), ("reflectionPositionY", .num 10),
   ("reflection", .bool false), ("scanlineMask", .str "shadow-mask"), ("flickerOpacity", .num 0.13),
   ("flicker", .bool true), ("colorPaletteShift", .num 15), ("interlaceSpeed", .num 0.08)]

/-- Preset table entry for name "studio-display-crt", fields in source insertion order. -/
def presetStudioDisplayCrt : List (String × JsVal) :=
  [("scanOpacity", .num 0.65), ("scanlineColor", .num 0.18), ("hairlineOpacity", .num 0.25),
   ("fringeOpacity", .num 0.1), ("fringeDominant", .num 0.35), ("fringeJitterSpeed", .num 2.5),
   ("fringeJitterAmount", .num 1), ("noiseOpacity", .num 0.06), ("barrel", .num 1.1),
   ("scanSize", .num 2.8), ("scanDensity", .num 2.8), ("phosphorSize", .num 0.65),
   ("phosphorOpacityRed", .num 0.13), ("phosphorOpacityGreen", .num 0.15), ("phosphorOpacityBlue", .num 0.14),
   ("bloom", .num 0.32), ("bloomColor", .str "white"), ("bloomRadius", .num 1250),
   ("bloomDecay", .num 65), ("bloomBlur", .num 14), ("bloomBrightness", .num 1.5),
   ("vignetteOpacity", .num 0.82), ("vignetteRadius", .num 80), ("vignetteFeather", .num 32),
   ("vignetteColorLight", .num 0.25), ("vignetteColorDark", .num 0.55), ("reflectionOpacity", .num 0.02),
   ("reflectionSize", .num 1250), ("reflectionPositionX", .num 50), ("reflectionPositionY", .num 10),
   ("reflection", .bool false), ("scanlineMask", .str "sharp"), ("flickerOpacity", .num 0.03),
   ("flicker", .bool false), ("colorPaletteShift", .num (-5)), ("interlaceSpeed", .num 0.12)]

/-- Preset table entry for name "arcade-crt", fields in source insertion order. -/
def presetArcadeCrt : List (String × JsVal) :=
  [("scanOpacity", .num 0.95), ("scanlineColor", .num 0), ("hairlineOpacity", .num 0.13),
   ("fringeOpacity", .num 0.38), ("fringeDominant", .num 0.7), ("fringeJitterSpeed", .num 4.2),
   ("fringeJitterAmount", .num 3.5), ("noiseOpacity", .num 0.42), ("barrel", .num 4.8),
   ("scanSize", .num 7.5), ("scanDensity", .num 1.3), ("phosphorSize", .num 1.8),
   ("phosphorOpacityRed", .num 0.16), ("phosphorOpacityGreen", .num 0.15), ("phosphorOpacityBlue", .num 0.14),
   ("bloom", .num 0.32), ("bloomColor", .str "white"), ("bloomRadius", .num 1500),
   ("bloomDecay", .num 48), ("bloomBlur", .num 11), ("bloomBrightness", .num 1.1),
   ("vignetteOpacity", .num 0.93), ("vignetteRadius", .num 87), ("vignetteFeather", .num 40),
   ("vignetteColorLight", .num 0.38), ("vignetteColorDark", .num 0.72), ("reflectionOpacity", .num 0.045),
   ("reflectionSize", .num 1500), ("reflectionPositionX", .num 50), ("reflectionPositionY", .num 10),
   ("reflection", .bool false), ("scanlineMask", .str "soft"), ("flickerOpacity", .num 0.16),
   ("flicker", .bool true), ("colorPaletteShift", .num 0), ("interlaceSpeed", .num 0.08)]

/-- Preset table entry for name "amber-phosphor", fields in source insertion order. -/
def presetAmberPhosphor : List (String × JsVal) :=
  [("scanOpacity", .num 0.78), ("scanlineColor", .num 0.22), ("hairlineOpacity", .num 0.2),
   ("fringeOpacity", .num 0.08), ("fringeDominant", .num 0.5), ("fringeJitterSpeed", .num 3),
   ("fringeJitterAmount", .num 1.5), ("noiseOpacity", .num 0.18), ("barrel", .num 2.1),
   ("scanSize", .num 4), ("scanDensity", .num 2), ("phosphorSize", .num 0.95),
   ("phosphorOpacityRed", .num 0.18), ("phosphorOpacityGreen", .num 0.12), ("phosphorOpacityBlue", .num 0.08),
   ("bloom", .num 0.22), ("bloomColor", .str "amber"), ("bloomRadius", .num 1400),
   ("bloomDecay", .num 54), ("bloomBlur", .num 11), ("bloomBrightness", .num 1.3),
   ("vignetteOpacity", .num 0.86), ("vignetteRadius", .num 84), ("vignetteFeather", .num 39),
   ("vignetteColorLight", .num 0.33), ("vignetteColorDark", .num 0.66), ("reflectionOpacity", .num 0.028),
   ("reflectionSize", .num 1400), ("reflectionPositionX", .num 50), ("reflectionPositionY", .num 10),
   ("reflection", .bool false), ("scanlineMask", .str "shadow-mask"), ("flickerOpacity", .num 0.09),
   ("flicker", .bool true), ("colorPaletteShift", .num 25), ("interlaceSpeed", .num 0.08)]

/-- Preset table entry for name "green-phosphor", fields in source insertion order. -/
def presetGreenPhosphor : List (String × JsVal) :=
  [("scanOpacity", .num 0.8), ("scanlineColor", .num 0.18), ("hairlineOpacity", .num 0.22),
   ("fringeOpacity", .num 0.08), ("fringeDominant", .num 0.5), ("fringeJitterSpeed", .num 3),
   ("fringeJitterAmount", .num 1.5), ("noiseOpacity", .num 0.2), ("barrel", .num 2.2),
   ("scanSize", .num 4), ("scanDensity", .num 2), ("phosphorSize", .num 0.95),
   ("phosphorOpacityRed", .num 0.08), ("phosphorOpacityGreen", .num 0.18), ("phosphorOpacityBlue", .num 0.08),
   ("bloom", .num 0.2), ("bloomColor", .str "green"), ("bloomRadius", .num 1380),
   ("bloomDecay", .num 56), ("bloomBlur", .num 10), ("bloomBrightness", .num 1.2),
   ("vignetteOpacity", .num 0.88), ("vignetteRadius", .num 85), ("vignetteFeather", .num 40),
   ("vignetteColorLight", .num 0.34), ("vignetteColorDark", .num 0.69), ("reflectionOpacity", .num 0.03),
   ("reflectionSize", .num 1380), ("reflectionPositionX", .num 50), ("reflectionPositionY", .num 10),
   ("reflection", .bool false), ("scanlineMask", .str "shadow-mask"), ("flickerOpacity", .num 0.08),
   ("flicker", .bool true), ("colorPaletteShift", .num 120), ("interlaceSpeed", .num 0.08)]

/-- Preset table entry for name "blue-phosphor", fields in source insertion order. -/
def presetBluePhosphor : List (String × JsVal) :=
  [("scanOpacity", .num 0.76), ("scanlineColor", .num 0.12), ("hairlineOpacity", .num 0.19),
   ("fringeOpacity", .num 0.1), ("fringeDominant", .num 0.45), ("fringeJitterSpeed", .num 2.8),
   ("fringeJitterAmount", .num 1.5), ("noiseOpacity", .num 0.16), ("barrel", .num 1.9),
   ("scanSize", .num 4), ("scanDensity", .num 2.1), ("phosphorSize", .num 0.9),
   ("phosphorOpacityRed", .num 0.08), ("phosphorOpacityGreen", .num 0.08), ("phosphorOpacityBlue", .num 0.18),
   ("bloom", .num 0.24), ("bloomColor", .str "blue"), ("bloomRadius", .num 1420),
   ("bloomDecay", .num 53), ("bloomBlur", .num 11), ("bloomBrightness", .num 1.35),
   ("vignetteOpacity", .num 0.89), ("vignetteRadius", .num 86), ("vignetteFeather", .num 41),
   ("vignetteColorLight", .num 0.36), ("vignetteColorDark", .num 0.71), ("reflectionOpacity", .num 0.032),
   ("reflectionSize", .num 1420), ("reflectionPositionX", .num 50), ("reflectionPositionY", .num 10),
   ("reflection", .bool false), ("scanlineMask", .str "shadow-mask"), ("flickerOpacity", .num 0.07),
   ("flicker", .bool true), ("colorPaletteShift", .num (-40)), ("interlaceSpeed", .num 0.08)]

/-- Preset table entry for name "vt220-terminal", fields in source insertion order. -/
def presetVt220Terminal : List (String × JsVal) :=
  [("scanOpacity", .num 0.82), ("scanlineColor", .num 0.15), ("hairlineOpacity", .num 0.24),
   ("fringeOpacity", .num 0.05), ("fringeDominant", .num 0.5), ("fringeJitterSpeed", .num 2.5),
   ("fringeJitterAmount", .num 1), ("noiseOpacity", .num 0.12), ("barrel", .num 0.8),
   ("scanSize", .num 3.2), ("scanDensity", .num 2.5), ("phosphorSize", .num 0.8),
   ("phosphorOpacityRed", .num 0.05), ("phosphorOpacityGreen", .num 0.18), ("phosphorOpacityBlue", .num 0.05),
   ("bloom", .num 0.15), ("bloomColor", .str "green"), ("bloomRadius", .num 1300),
   ("bloomDecay", .num 58), ("bloomBlur", .num 9), ("bloomBrightness", .num 1.1),
   ("vignetteOpacity", .num 0.85), ("vignetteRadius", .num 83), ("vignetteFeather", .num 36),
   ("vignetteColorLight", .num 0.28), ("vignetteColorDark", .num 0.6), ("reflectionOpacity", .num 0.02),
   ("reflectionSize", .num 1300), ("reflectionPositionX", .num 50), ("reflectionPositionY", .num 10),
   ("reflection", .bool false), ("scanlineMask", .str "sharp"), ("flickerOpacity", .num 0.06),
   ("flicker", .bool false), ("colorPaletteShift", .num 120), ("interlaceSpeed", .num 0.12)]

/-- Preset table entry for name "lcd-handheld", fields in source insertion order. -/
def presetLcdHandheld : List (String × JsVal) :=
  [("scanOpacity", .num 0.5), ("scanlineColor", .num 0.4), ("hairlineOpacity", .num 0.35),
   ("fringeOpacity", .num 0.02), ("fringeDominant", .num 0.5), ("fringeJitterSpeed", .num 4.5),
   ("fringeJitterAmount", .num 4), ("noiseOpacity", .num 0.48), ("barrel", .num 3.6),
   ("scanSize", .num 2), ("scanDensity", .num 1), ("phosphorSize", .num 0.6),
   ("phosphorOpacityRed", .num 0.06), ("phosphorOpacityGreen", .num 0.16), ("phosphorOpacityBlue", .num 0.06),
   ("bloom", .num 0.06), ("bloomColor", .str "green"), ("bloomRadius", .num 1200),
   ("bloomDecay", .num 62), ("bloomBlur", .num 8), ("bloomBrightness", .num 0.8),
   ("vignetteOpacity", .num 0.91), ("vignetteRadius", .num 81), ("vignetteFeather", .num 44),
   ("vignetteColorLight", .num 0.42), ("vignetteColorDark", .num 0.78), ("reflectionOpacity", .num 0.05),
   ("reflectionSize", .num 1200), ("reflectionPositionX", .num 50), ("reflectionPositionY", .num 10),
   ("reflection", .bool false), ("scanlineMask", .str "soft"), ("flickerOpacity", .num 0.2),
   ("flicker", .bool true), ("colorPaletteShift", .num 140), ("interlaceSpeed", .num 0.12)]

/-- Preset table entry for name "classic-rgb", fields in source insertion order. -/
def presetClassicRgb : List (String × JsVal) :=
  [("scanOpacity", .num 0.79), ("scanlineColor", .num 0.11), ("hairlineOpacity", .num 0.19),
   ("fringeOpacity", .num 0.28), ("fringeDominant", .num 0.55), ("fringeJitterSpeed", .num 3.3),
   ("fringeJitterAmount", .num 2), ("noiseOpacity", .num 0.19), ("barrel", .num 1.5),
   ("scanSize", .num 3.8), ("scanDensity", .num 2.3), ("phosphorSize", .num 1.05),
   ("phosphorOpacityRed", .num 0.15), ("phosphorOpacityGreen", .num 0.15), ("phosphorOpacityBlue", .num 0.15),
   ("bloom", .num 0.18), ("bloomColor", .str "white"), ("bloomRadius", .num 1380),
   ("bloomDecay", .num 55), ("bloomBlur", .num 10), ("bloomBrightness", .num 1.2),
   ("vignetteOpacity", .num 0.86), ("vignetteRadius", .num 84), ("vignetteFeather", .num 38),
   ("vignetteColorLight", .num 0.32), ("vignetteColorDark", .num 0.67), ("reflectionOpacity", .num 0.03),
   ("reflectionSize", .num 1380), ("reflectionPositionX", .num 50), ("reflectionPositionY", .num 10),
   ("reflection", .bool false), ("scanlineMask", .str "shadow-mask"), ("flickerOpacity", .num 0.1),
   ("flicker", .bool true), ("colorPaletteShift", .num 10), ("interlaceSpeed", .num 0.08)]

/-- Preset table entry for name "precision-flatcrt", fields in source insertion order. -/
def presetPrecisionFlatcrt : List (String × JsVal) :=
  [("scanOpacity", .num 0.68), ("scanlineColor", .num 0.16), ("hairlineOpacity", .num 0.22),
   ("fringeOpacity", .num 0.13), ("fringeDominant", .num 0.3), ("fringeJitterSpeed", .num 2.6),
   ("fringeJitterAmount", .num 1.2), ("noiseOpacity", .num 0.08), ("barrel", .num 1.3),
   ("scanSize", .num 3), ("scanDensity", .num 2.6), ("phosphorSize", .num 0.8),
   ("phosphorOpacityRed", .num 0.12), ("phosphorOpacityGreen", .num 0.13), ("phosphorOpacityBlue", .num 0.12),
   ("bloom", .num 0.28), ("bloomColor", .str "white"), ("bloomRadius", .num 1320),
   ("bloomDecay", .num 60), ("bloomBlur", .num 13), ("bloomBrightness", .num 1.4),
   ("vignetteOpacity", .num 0.83), ("vignetteRadius", .num 79), ("vignetteFeather", .num 30),
   ("vignetteColorLight", .num 0.22), ("vignetteColorDark", .num 0.5), ("reflectionOpacity", .num 0.015),
   ("reflectionSize", .num 1320), ("reflectionPositionX", .num 50), ("reflectionPositionY", .num 10),
   ("reflection", .bool false), ("scanlineMask", .str "sharp"), ("flickerOpacity", .num 0.04),
   ("flicker", .bool false), ("colorPaletteShift", .num (-10)), ("interlaceSpeed", .num 0.12)]

/-- Preset table entry for name "retro-studio", fields in source insertion order. -/
def presetRetroStudio : List (String × JsVal) :=
  [("scanOpacity", .num 0.84), ("scanlineColor", .num 0.04), ("hairlineOpacity", .num 0.17),
   ("fringeOpacity", .num 0.22), ("fringeDominant", .num 0.52), ("fringeJitterSpeed", .num 3.2),
   ("fringeJitterAmount", .num 2), ("noiseOpacity", .num 0.24), ("barrel", .num 2.4),
   ("scanSize", .num 4.2), ("scanDensity", .num 2), ("phosphorSize", .num 1.08),
   ("phosphorOpacityRed", .num 0.15), ("phosphorOpacityGreen", .num 0.15), ("phosphorOpacityBlue", .num 0.15),
   ("bloom", .num 0.2), ("bloomColor", .str "white"), ("bloomRadius", .num 1400),
   ("bloomDecay", .num 54), ("bloomBlur", .num 10), ("bloomBrightness", .num 1.25),
   ("vignetteOpacity", .num 0.89), ("vignetteRadius", .num 86), ("vignetteFeather", .num 41),
   ("vignetteColorLight", .num 0.35), ("vignetteColorDark", .num 0.7), ("reflectionOpacity", .num 0.032),
   ("reflectionSize", .num 1400), ("reflectionPositionX", .num 50), ("reflectionPositionY", .num 10),
   ("reflection", .bool false), ("scanlineMask", .str "shadow-mask"), ("flickerOpacity", .num 0.11),
   ("flicker", .bool true), ("colorPaletteShift", .num 5), ("interlaceSpeed", .num 0.08)]

/-- Preset table entry for name "broadcast-monitor", fields in source insertion order. -/
def presetBroadcastMonitor : List (String × JsVal) :=
  [("scanOpacity", .num 0.7), ("scanlineColor", .num 0.12), ("hairlineOpacity", .num 0.2),
   ("fringeOpacity", .num 0.08), ("fringeDominant", .num 0.45), ("fringeJitterSpeed", .num 2.7),
   ("fringeJitterAmount", .num 1), ("noiseOpacity", .num 0.08), ("barrel", .num 1.2),
   ("scanSize", .num 3), ("scanDensity", .num 2.5), ("phosphorSize", .num 0.85),
   ("phosphorOpacityRed", .num 0.14), ("phosphorOpacityGreen", .num 0.15), ("phosphorOpacityBlue", .num 0.14),
   ("bloom", .num 0.26), ("bloomColor", .str "white"), ("bloomRadius", .num 1280),
   ("bloomDecay", .num 58), ("bloomBlur", .num 12), ("bloomBrightness", .num 1.35),
   ("vignetteOpacity", .num 0.84), ("vignetteRadius", .num 81), ("vignetteFeather", .num 34),
   ("vignetteColorLight", .num 0.26), ("vignetteColorDark", .num 0.58), ("reflectionOpacity", .num 0.022),
   ("reflectionSize", .num 1280), ("reflectionPositionX", .num 50), ("reflectionPositionY", .num 10),
   ("reflection", .bool false), ("scanlineMask", .str "sharp"), ("flickerOpacity", .num 0.04),
   ("flicker", .bool false), ("colorPaletteShift", .num (-3)), ("interlaceSpeed", .num 0.12)]

/-- Preset table entry for name "rgb-professional", fields in source insertion order. -/
def presetRgbProfessional : List (String × JsVal) :=
  [("scanOpacity", .num 0.68), ("scanlineColor", .num 0.15), ("hairlineOpacity", .num 0.18),
   ("fringeOpacity", .num 0.06), ("fringeDominant", .num 0.38), ("fringeJitterSpeed", .num 2.5),
   ("fringeJitterAmount", .num 0.8), ("noiseOpacity", .num 0.05), ("barrel", .num 0.9),
   ("scanSize", .num 2.8), ("scanDensity", .num 2.7), ("phosphorSize", .num 0.75),
   ("phosphorOpacityRed", .num 0.13), ("phosphorOpacityGreen", .num 0.15), ("phosphorOpacityBlue", .num 0.13),
   ("bloom", .num 0.3), ("bloomColor", .str "white"), ("bloomRadius", .num 1220),
   ("bloomDecay", .num 62), ("bloomBlur", .num 13), ("bloomBrightness", .num 1.4),
   ("vignetteOpacity", .num 0.81), ("vignetteRadius", .num 78), ("vignetteFeather", .num 30),
   ("vignetteColorLight", .num 0.23), ("vignetteColorDark", .num 0.52), ("reflectionOpacity", .num 0.018),
   ("reflectionSize", .num 1220), ("reflectionPositionX", .num 50), ("reflectionPositionY", .num 10),
   ("reflection", .bool false), ("scanlineMask", .str "aperture-grille"), ("flickerOpacity", .num 0.03),
   ("flicker", .bool false), ("colorPaletteShift", .num (-8)), ("interlaceSpeed", .num 0.12)]

/-- Preset table entry for name "phosphor-white", fields in source insertion order. -/
def presetPhosphorWhite : List (String × JsVal) :=
  [("scanOpacity", .num 0.75), ("scanlineColor", .num 0.2), ("hairlineOpacity", .num 0.23),
   ("fringeOpacity", .num 0.05), ("fringeDominant", .num 0.5), ("fringeJitterSpeed", .num 2.8),
   ("fringeJitterAmount", .num 1.2), ("noiseOpacity", .num 0.14), ("barrel", .num 1.8),
   ("scanSize", .num 3.8), ("scanDensity", .num 2.2), ("phosphorSize", .num 0.9),
   ("phosphorOpacityRed", .num 0.16), ("phosphorOpacityGreen", .num 0.16), ("phosphorOpacityBlue", .num 0.16),
   ("bloom", .num 0.18), ("bloomColor", .str "white"), ("bloomRadius", .num 1350),
   ("bloomDecay", .num 56), ("bloomBlur", .num 10), ("bloomBrightness", .num 1.25),
   ("vignetteOpacity", .num 0.87), ("vignetteRadius", .num 83), ("vignetteFeather", .num 37),
   ("vignetteColorLight", .num 0.31), ("vignetteColorDark", .num 0.64), ("reflectionOpacity", .num 0.026),
   ("reflectionSize", .num 1350), ("reflectionPositionX", .num 50), ("reflectionPositionY", .num 10),
   ("reflection", .bool false), ("scanlineMask", .str "sharp"), ("flickerOpacity", .num 0.07),
   ("flicker", .bool true), ("colorPaletteShift", .num 0), ("interlaceSpeed", .num 0.08)]

/-- Preset table entry for name "composite-color", fields in source insertion order. -/
def presetCompositeColor : List (String × JsVal) :=
  [("scanOpacity", .num 0.9), ("scanlineColor", .num 0.05), ("hairlineOpacity", .num 0.16),
   ("fringeOpacity", .num 0.42), ("fringeDominant", .num 0.68), ("fringeJitterSpeed", .num 3.9),
   ("fringeJitterAmount", .num 3.2), ("noiseOpacity", .num 0.38), ("barrel", .num 3.2),
   ("scanSize", .num 5.5), ("scanDensity", .num 1.7), ("phosphorSize", .num 1.3),
   ("phosphorOpacityRed", .num 0.17), ("phosphorOpacityGreen", .num 0.14), ("phosphorOpacityBlue", .num 0.16),
   ("bloom", .num 0.12), ("bloomColor", .str "amber"), ("bloomRadius", .num 1420),
   ("bloomDecay", .num 58), ("bloomBlur", .num 9), ("bloomBrightness", .num 1.05),
   ("vignetteOpacity", .num 0.92), ("vignetteRadius", .num 87), ("vignetteFeather", .num 40),
   ("vignetteColorLight", .num 0.37), ("vignetteColorDark", .num 0.74), ("reflectionOpacity", .num 0.038),
   ("reflectionSize", .num 1420), ("reflectionPositionX", .num 50), ("reflectionPositionY", .num 10),
   ("reflection", .bool false), ("scanlineMask", .str "shadow-mask"), ("flickerOpacity", .num 0.14),
   ("flicker", .bool true), ("colorPaletteShift", .num 20), ("interlaceSpeed", .num 0.08)]

/-- Preset table entry for name "plasma-display", fields in source insertion order. -/
def presetPlasmaDisplay : List (String × JsVal) :=
  [("scanOpacity", .num 0.4), ("scanlineColor", .num 0.5), ("hairlineOpacity", .num 0.08),
   ("fringeOpacity", .num 0.15), ("fringeDominant", .num 0.48), ("fringeJitterSpeed", .num 3.5),
   ("fringeJitterAmount", .num 1.8), ("noiseOpacity", .num 0.12), ("barrel", .num 0.5),
   ("scanSize", .num 2), ("scanDensity", .num 3), ("phosphorSize", .num 0.7),
   ("phosphorOpacityRed", .num 0.16), ("phosphorOpacityGreen", .num 0.14), ("phosphorOpacityBlue", .num 0.15),
   ("bloom", .num 0.35), ("bloomColor", .str "white"), ("bloomRadius", .num 1600),
   ("bloomDecay", .num 45), ("bloomBlur", .num 16), ("bloomBrightness", .num 1.6),
   ("vignetteOpacity", .num 0.78), ("vignetteRadius", .num 88), ("vignetteFeather", .num 38),
   ("vignetteColorLight", .num 0.28), ("vignetteColorDark", .num 0.62), ("reflectionOpacity", .num 0.05),
   ("reflectionSize", .num 1600), ("reflectionPositionX", .num 50), ("reflectionPositionY", .num 10),
   ("reflection", .bool false), ("scanlineMask", .str "soft"), ("flickerOpacity", .num 0.06),
   ("flicker", .bool false), ("colorPaletteShift", .num (-15)), ("interlaceSpeed", .num 0.12)]

/-- Preset table entry for name "vector-display", fields in source insertion order. -/
def presetVectorDisplay : List (String × JsVal) :=
  [("scanOpacity", .num 0.3), ("scanlineColor", .num 0.6), ("hairlineOpacity", .num 0.05),
   ("fringeOpacity", .num 0.05), ("fringeDominant", .num 0.5), ("fringeJitterSpeed", .num 2.2),
   ("fringeJitterAmount", .num 0.5), ("noiseOpacity", .num 0.08), ("barrel", .num 1.6),
   ("scanSize", .num 2), ("scanDensity", .num 1), ("phosphorSize", .num 0.5),
   ("phosphorOpacityRed", .num 0.08), ("phosphorOpacityGreen", .num 0.18), ("phosphorOpacityBlue", .num 0.1),
   ("bloom", .num 0.45), ("bloomColor", .str "green"), ("bloomRadius", .num 1800),
   ("bloomDecay", .num 35), ("bloomBlur", .num 18), ("bloomBrightness", .num 1.8),
   ("vignetteOpacity", .num 0.88), ("vignetteRadius", .num 86), ("vignetteFeather", .num 45),
   ("vignetteColorLight", .num 0.38), ("vignetteColorDark", .num 0.76), ("reflectionOpacity", .num 0.02),
   ("reflectionSize", .num 1800), ("reflectionPositionX", .num 50), ("reflectionPositionY", .num 10),
   ("reflection", .bool false), ("scanlineMask", .str "soft"), ("flickerOpacity", .num 0.05),
   ("flicker", .bool false), ("colorPaletteShift", .num 130), ("interlaceSpeed", .num 0.12)]

/-- Static preset table of `CRTOverlay.getPreset`: maps a preset name to its
complete parameter set; an unknown name yields `undefined` (`none`). -/
def getPreset (name : String) : Option (List (String × JsVal)) :=
  match name with
  | "default" => some presetDefault
  | "trinitron-fd" => some presetTrinitronFd
  | "professional-monitor" => some presetProfessionalMonitor
  | "monitor-1084s" => some presetMonitor1084s
  | "studio-display-crt" => some presetStudioDisplayCrt
  | "arcade-crt" => some presetArcadeCrt
  | "amber-phosphor" => some presetAmberPhosphor
  | "green-phosphor" => some presetGreenPhosphor
  | "blue-phosphor" => some presetBluePhosphor
  | "vt220-terminal" => some presetVt220Terminal
  | "lcd-handheld" => some presetLcdHandheld
  | "classic-rgb" => some presetClassicRgb
  | "precision-flatcrt" => some presetPrecisionFlatcrt
  | "retro-studio" => some presetRetroStudio
  | "broadcast-monitor" => some presetBroadcastMonitor
  | "rgb-professional" => some presetRgbProfessional
  | "phosphor-white" => some presetPhosphorWhite
  | "composite-color" => some presetCompositeColor
  | "plasma-display" => some presetPlasmaDisplay
  | "vector-display" => some presetVectorDisplay
  | _ => none


/-! Helper lemmas about the attribute path, shared by several claims. -/

/-- Writing an observed attribute routes the configuration through
`attributeChangedCallback`. -/
theorem setAttribute_config_observed (st : ElementState) (n v : String)
    (h : n ∈ observedAttributes) :
    (setAttribute st n v).config
      = attributeChangedCallback st.config n (st.attrs.lookup n) (some v) := by
  simp [setAttribute, h]

/-- Writing an attribute that is not observed never touches the
configuration: the DOM does not invoke `attributeChangedCallback` for it. -/
theorem setAttribute_config_unobserved (st : ElementState) (n v : String)
    (h : n ∉ observedAttributes) :
    (setAttribute st n v).config = st.config := by
  simp [setAttribute, h]

/-- In the generic numeric branch of `attributeChangedCallback`, a value
whose parse fails leaves the configuration untouched (for any mapped
attribute that is not one of the specially handled shapes). -/
theorem callback_parse_fail_retains (cfg : Config) (n : String) (old : Option String)
    (v : String) (hv : jsParseFloat v = none) (key : String)
    (hlk : attrConfigMap.lookup n = some key)
    (hf : n ≠ "flicker") (hc : n ≠ "controls") (hr : n ≠ "reflection")
    (hab : n ≠ "apply-barrel-to") (hm : n ≠ "mode") (hbc : n ≠ "bloom-color") :
    attributeChangedCallback cfg n old (some v) = cfg := by
  unfold attributeChangedCallback
  by_cases h : old == some v
  · simp [h]
  · simp [h, hlk, hf, hc, hr, hab, hm, hbc, hv]

/-- The barrel filter reference is never the literal string `none`
(their lengths differ). -/
theorem barrelFilterRef_ne_none (uid : String) : barrelFilterRef uid ≠ "none" := by
  intro h
  have hlen : (barrelFilterRef uid).length = ("none" : String).length :=
    congrArg String.length h
  rw [barrelFilterRef, String.length_append, String.length_append] at hlen
  have h1 : ("url(#crt-barrel-" : String).length = 16 := rfl
  have h2 : (")" : String).length = 1 := rfl
  have h3 : ("none" : String).length = 4 := rfl
  rw [h1, h2, h3] at hlen
  omega

/-! Concrete configurations used by individual claims. -/

/-- Configuration reachable through the attribute path (`mode="-1"` parses
to -1, which is truthy in JavaScript) with both global-filter triggers at
their documented maxima. -/
def cfgNegativeMode : Config :=
  { initialConfig with mode := -1, barrel := 6, colorPaletteShift := 180 }

/-- Configuration with a negative mode, maximal barrel and no palette
shift. -/
def cfgNegativeModeNoShift : Config :=
  { initialConfig with mode := -1, barrel := 6 }

/-- Out-of-range mode 5 (reachable via `mode="5"`), other parameters at
their defaults. -/
def cfgMode5 : Config :=
  { initialConfig with mode := 5 }

/-- Default configuration with bloom strength 0.5 (above the dead zone, and
high enough that the blur cap binds). -/
def cfgBloomHalf : Config :=
  { initialConfig with bloom := 0.5 }

/-- Attributes that `attributeChangedCallback` parses with the generic
floating-point branch (mapped attributes minus the presence-boolean,
`apply-barrel-to`, `mode`, `bloom-color` and `scanline-mask` shapes). -/
def floatKindAttrs : List String :=
  ["scan-opacity", "scanline-color", "hairline-opacity", "fringe-opacity", "fringe-dominant",
   "fringe-jitter-speed", "fringe-jitter-amount", "noise-opacity", "barrel", "scan-size",
   "scan-density", "phosphor-size", "phosphor-opacity-red", "phosphor-opacity-green",
   "phosphor-opacity-blue", "bloom", "bloom-radius", "bloom-decay", "bloom-blur",
   "bloom-brightness", "vignette-opacity", "vignette-radius", "vignette-feather",
   "vignette-color-light", "vignette-color-dark", "reflection-opacity", "reflection-size",
   "reflection-position-x", "reflection-position-y", "flicker-opacity", "color-palette-shift",
   "interlace-speed"]

/-- Attributes that the README documents as settable and that
`attributeChangedCallback`'s lookup table maps, but that are missing from
`observedAttributes`. -/
def documentedButUnobservedAttrs : List String :=
  ["scanline-mask", "bloom-brightness", "fringe-jitter-speed", "fringe-jitter-amount",
   "phosphor-opacity-red", "phosphor-opacity-green", "phosphor-opacity-blue",
   "vignette-color-light", "vignette-color-dark"]



/-! Claim theorems.  The kernel evaluates rational arithmetic fine, but the
Batteries definitions of the `Rat` operations are `@[irreducible]`, which
blocks `decide`'s reducibility pre-check; `unseal` lifts that locally. -/

unseal Rat.add Rat.mul Rat.inv Rat.sub Rat.ofScientific

/-- C1: the claim says a numeric attribute write stores a clamped result so
that every stored value satisfies its documented range.  The code has no
clamping: the README declares `scan-opacity`'s range as [0, 1], yet writing
the attribute value "2" stores 2, which exceeds the upper bound 1 (the claim
would require the stored value to be 1). -/
theorem c1_attribute_write_stores_unclamped_value :
    documentedRanges.lookup "scan-opacity" = some (0, 1) ∧
    (setAttribute initialElement "scan-opacity" "2").config.scanOpacity = 2 ∧
    ¬ ((2 : ℚ) ≤ 1) := by
  decide

/-- C2: the claim says the attribute value "0" stores mode 0 (disabled).
The handler computes `parseInt(newValue, 10) || 1`, and the parsed 0 is
falsy in JavaScript, so the attribute value "0" stores mode 1, not 0
(while "1" and "2" store 1 and 2 as claimed). -/
theorem c2_mode_attribute_zero_stores_one :
    (setAttribute initialElement "mode" "0").config.mode = 1 ∧
    (setAttribute initialElement "mode" "1").config.mode = 1 ∧
    (setAttribute initialElement "mode" "2").config.mode = 2 ∧
    (1 : Int) ≠ 0 := by
  decide

/-- C4 counterexample: with bloom 0.5 and the default blur amount 10, the
claimed formula `min(bloomBlur * max(0.15, bloom), 2.5)` yields 2.5, but
the code emits `min(..., 1.5) = 1.5`: the cap in the source is 1.5, not the
2.5 documented in the README and restated by the claim. -/
theorem c4_bloom_blur_cap_counterexample :
    updateExternalBloomLayer cfgBloomHalf = some (1.5, 1.24) ∧
    min (cfgBloomHalf.bloomBlur * max (0.15 : ℚ) cfgBloomHalf.bloom) 2.5 = 2.5 ∧
    (1.5 : ℚ) ≠ 2.5 := by
  decide

/-- C4 amended: above the dead zone the bloom approximation's blur is the
configured blur amount times `max(0.15, bloom)` capped at 1.5 (not 2.5),
and its brightness is `1 + bloom * bloomBrightness * 0.4` as claimed. -/
theorem c4_bloom_blur_capped_at_one_point_five (cfg : Config)
    (h : ¬ cfg.bloom < 0.05) :
    updateExternalBloomLayer cfg =
      some (min (cfg.bloomBlur * max 0.15 cfg.bloom) 1.5,
            1 + cfg.bloom * cfg.bloomBrightness * 0.4) := by
  simp [updateExternalBloomLayer, h]

/-- C4 witness: the amended formula evaluated at the constructor defaults
(bloom 0.15 is above the dead zone). -/
theorem c4_bloom_blur_capped_witness :
    updateExternalBloomLayer initialConfig =
      some (min (initialConfig.bloomBlur * max 0.15 initialConfig.bloom) 1.5,
            1 + initialConfig.bloom * initialConfig.bloomBrightness * 0.4) :=
  c4_bloom_blur_capped_at_one_point_five initialConfig (by decide)

/-- C8: bloom strength below the 0.05 threshold disables the bloom
approximation entirely (the backdrop filter is the literal `none`: no blur,
no brightness), while bloom exactly 0.05 (other parameters at their
defaults) emits blur 1.5 — nonzero and at most 2.5 — and brightness
1.024. -/
theorem c8_bloom_dead_zone :
    (∀ cfg : Config, cfg.bloom < 0.05 → updateExternalBloomLayer cfg = none) ∧
    updateExternalBloomLayer { initialConfig with bloom := 0.05 } = some (1.5, 1.024) ∧
    (0 : ℚ) < 1.5 ∧ (1.5 : ℚ) ≤ 2.5 := by
  refine ⟨?_, by decide, by decide, by decide⟩
  intro cfg h
  simp [updateExternalBloomLayer, h]

/-- C8 witness: the dead-zone branch evaluated at bloom 0.03, the spec's
example input. -/
theorem c8_bloom_dead_zone_witness :
    updateExternalBloomLayer { initialConfig with bloom := 0.03 } = none :=
  c8_bloom_dead_zone.1 { initialConfig with bloom := 0.03 } (by decide)



/-- C3: the claim says preset application fully overwrites ConfigState, with
identical results regardless of prior state and under repetition.  In the
code, `applyPreset` first copies the preset with `Object.assign` but then
echoes every entry through `setAttribute`; for the presence-boolean
attributes (`reflection`, `flicker`) that echo turns the preset's literal
`false` into `true` whenever the attribute string actually changes, so a
first application of "default" leaves `reflection = true` while a second,
identical application leaves `reflection = false` — two different
ConfigStates.  Keys absent from presets (such as `mode`) also retain their
prior values, contradicting the claimed prior-state independence. -/
theorem c3_preset_application_not_idempotent :
    (applyPreset initialElement presetDefault).config.reflection = true ∧
    (applyPreset (applyPreset initialElement presetDefault) presetDefault).config.reflection
      = false ∧
    (applyPreset initialElement presetDefault).config ≠
      (applyPreset (applyPreset initialElement presetDefault) presetDefault).config ∧
    (applyPreset { attrs := [], config := { initialConfig with mode := 2 } }
        presetDefault).config.mode = 2 ∧
    (applyPreset initialElement presetDefault).config.mode = 1 := by
  decide

/-- C5: the claim says every documented parameter is settable through its
attribute.  The handler's lookup table does map `scanline-mask`,
`bloom-brightness`, the fringe-jitter, phosphor-opacity and vignette-color
attributes, but none of them is in `observedAttributes`, so the DOM never
invokes the handler for them: writing such an attribute (directly or via
the bulk `updateConfig`, which routes through `setAttribute`) never changes
the stored configuration. -/
theorem c5_documented_attributes_never_reach_config :
    (∀ a ∈ documentedButUnobservedAttrs,
        (attrConfigMap.lookup a).isSome = true ∧ a ∉ observedAttributes) ∧
    (∀ a ∈ documentedButUnobservedAttrs, ∀ (st : ElementState) (v : String),
        (setAttribute st a v).config = st.config) ∧
    (updateConfig initialElement [("bloomBrightness", "2")]).config = initialConfig := by
  refine ⟨by decide, ?_, by decide⟩
  intro a ha st v
  fin_cases ha <;> exact setAttribute_config_unobserved _ _ _ (by decide)

/-- C5 witness: writing `scanline-mask` on a fresh element leaves the
configuration at its constructor value. -/
theorem c5_scanline_mask_write_ignored :
    (setAttribute initialElement "scanline-mask" "soft").config = initialConfig :=
  c5_documented_attributes_never_reach_config.2.1 "scanline-mask" (by decide)
    initialElement "soft"

/-- C6 counterexample: mode -1 is reachable (`mode="-1"` parses to -1,
which is truthy), is not the disabled mode 0, and per the claim the
page-filtered flag should be on at barrel 6 and shift 180; the code tests
`mode > 0` and leaves the flag off. -/
theorem c6_negative_mode_suppresses_page_filter_class :
    (applyGlobalFilters "u" cfgNegativeMode none).bodyClassActive = false ∧
    (cfgNegativeMode.barrel > 0 ∨ cfgNegativeMode.colorPaletteShift ≠ 0) ∧
    cfgNegativeMode.mode ≠ 0 := by
  decide

/-- C6 amended: after every projection the page-filtered class is active iff
(barrel > 0 or palette shift ≠ 0) and the mode is strictly positive (for
the documented modes 0, 1, 2 this agrees with "not disabled"); in
particular mode 0 forces the flag off even at barrel 6 and shift 180. -/
theorem c6_page_filter_class_iff_mode_positive :
    (∀ (uid : String) (cfg : Config) (bfv : Option String),
        ((applyGlobalFilters uid cfg bfv).bodyClassActive = true ↔
          (cfg.barrel > 0 ∨ cfg.colorPaletteShift ≠ 0) ∧ cfg.mode > 0)) ∧
    (applyGlobalFilters "u"
        { initialConfig with mode := 0, barrel := 6, colorPaletteShift := 180 }
        none).bodyClassActive = false := by
  refine ⟨?_, by decide⟩
  intro uid cfg bfv
  simp [applyGlobalFilters]

/-- C7 counterexample: at mode -1 with barrel 6 and no palette shift, the
claim's reading (distortion active since barrel > 0 and the mode is not
the disabled mode 0) demands the chain be exactly the distortion filter
reference, but the code computes the literal "none". -/
theorem c7_negative_mode_chain_is_none :
    (applyGlobalFilters "u" cfgNegativeModeNoShift none).filterChain = "none" ∧
    cfgNegativeModeNoShift.barrel > 0 ∧ cfgNegativeModeNoShift.mode ≠ 0 ∧
    cfgNegativeModeNoShift.colorPaletteShift = 0 ∧
    "none" ≠ barrelFilterRef "u" := by
  decide

/-- C7 amended: the filter chain is distortion first, hue-rotation second,
joined by one space when both are active, the single active filter when
only one is active, and the literal "none" otherwise — with distortion
active iff barrel > 0 and mode > 0 (not merely "mode not disabled"), and
hue-rotation active iff the palette shift is nonzero. -/
theorem c7_filter_chain_fixed_order (uid : String) (cfg : Config) :
    (applyGlobalFilters uid cfg none).filterChain =
      if cfg.barrel > 0 ∧ cfg.mode > 0 then
        if cfg.colorPaletteShift ≠ 0 then
          barrelFilterRef uid ++ " " ++ hueFilterStr cfg.colorPaletteShift
        else barrelFilterRef uid
      else
        if cfg.colorPaletteShift ≠ 0 then hueFilterStr cfg.colorPaletteShift
        else "none" := by
  by_cases hd : cfg.barrel > 0 ∧ cfg.mode > 0 <;>
    by_cases hs : cfg.colorPaletteShift ≠ 0 <;>
      simp [applyGlobalFilters, hd, hs, barrelFilterRef_ne_none]

/-- C9: a floating-point attribute whose value fails to parse (such as
"abc") leaves the previously stored configuration value unchanged; the
handler is total, so no error reaches the caller. -/
theorem c9_parse_failure_retains_previous_value :
    jsParseFloat "abc" = none ∧
    ∀ a ∈ floatKindAttrs, ∀ (st : ElementState) (v : String),
      jsParseFloat v = none → (setAttribute st a v).config = st.config := by
  refine ⟨by decide, ?_⟩
  intro a ha st v hv
  fin_cases ha <;>
    first
      | exact setAttribute_config_unobserved _ _ _ (by decide)
      | (rw [setAttribute_config_observed _ _ _ (by decide)]
         exact callback_parse_fail_retains _ _ _ _ hv _ rfl (by decide) (by decide)
           (by decide) (by decide) (by decide) (by decide))

/-- C9 witness: the spec's scenario — `scan-opacity` set to "abc" retains
the constructor value. -/
theorem c9_scan_opacity_abc_retained :
    (setAttribute initialElement "scan-opacity" "abc").config = initialConfig :=
  c9_parse_failure_retains_previous_value.2 "scan-opacity" (by decide) initialElement
    "abc" (by decide)

/-- C10 counterexample: mode 5 does behave like mode 1 in
`updateModeZIndex`, but not in `applyGlobalFilters`: the target branch
treats every mode outside {1, 2} as having no filter target, so the two
projections differ (mode 1 targets ".bg-image"). -/
theorem c10_mode_five_differs_from_mode_one :
    updateModeZIndex cfgMode5 = updateModeZIndex initialConfig ∧
    initialConfig.mode = 1 ∧
    (applyGlobalFilters "u" cfgMode5 none).target = none ∧
    (applyGlobalFilters "u" initialConfig none).target = some ".bg-image" ∧
    applyGlobalFilters "u" cfgMode5 none ≠ applyGlobalFilters "u" initialConfig none := by
  decide

/-- C10 amended: a stored mode outside {0, 1, 2} behaves like mode 1 in
`updateModeZIndex` (the `default` branch) but yields no filter target in
`applyGlobalFilters` (unlike mode 1); and an unparseable mode attribute
value stores the fallback mode 1. -/
theorem c10_out_of_range_mode_behavior :
    (∀ cfg : Config, cfg.mode ≠ 0 → cfg.mode ≠ 1 → cfg.mode ≠ 2 →
        updateModeZIndex cfg = updateModeZIndex { cfg with mode := 1 } ∧
        (∀ (uid : String) (bfv : Option String),
          (applyGlobalFilters uid cfg bfv).target = none)) ∧
    (∀ (cfg : Config) (old : Option String) (v : String),
        old ≠ some v → jsParseInt v = none →
        (attributeChangedCallback cfg "mode" old (some v)).mode = 1) := by
  constructor
  · intro cfg h0 h1 h2
    constructor
    · simp [updateModeZIndex, h0, h1, h2]
    · intro uid bfv
      simp [applyGlobalFilters, h1, h2]
  · intro cfg old v hne hv
    have hbeq : (old == some v) = false := by simp [hne]
    simp [attributeChangedCallback, hbeq, attrConfigMap, List.lookup, hv]

/-- C10 witness: the amended statement evaluated at mode 5 and at the
unparseable mode value "abc". -/
theorem c10_out_of_range_mode_witness :
    updateModeZIndex cfgMode5 = updateModeZIndex { cfgMode5 with mode := 1 } ∧
    (applyGlobalFilters "u" cfgMode5 none).target = none ∧
    (attributeChangedCallback initialConfig "mode" none (some "abc")).mode = 1 :=
  ⟨(c10_out_of_range_mode_behavior.1 cfgMode5 (by decide) (by decide) (by decide)).1,
   (c10_out_of_range_mode_behavior.1 cfgMode5 (by decide) (by decide) (by decide)).2 "u" none,
   c10_out_of_range_mode_behavior.2 initialConfig none "abc" (by decide) (by decide)⟩


end CrtOverlay
